import Mathlib

/-!
Verification of the CS-programs ChromaDB loader/query tool.

This file gives a shallow embedding of the two Python source files
(`cs_programs_default_embedding.py` and its notebook twin
`cs_programs_notebook.py`) and proves/refutes the frozen claims about
them.  Python dynamic values are modelled by `PyVal`, the exceptions
that the relevant code can raise by `PyErr`, and the external
collaborators (the `json.loads` parser, the embedding backend and the
Chroma store calls) are passed in as explicit parameters, as the spec
treats them as black boxes.
-/

namespace CSPrograms

/-- Python dynamic values, as far as the embedded code observes them. -/
inductive PyVal where
  | none
  | bool (b : Bool)
  | int (n : Int)
  | str (s : String)
  | list (xs : List PyVal)
  | dict (kvs : List (String × PyVal))
deriving Repr

/-- The exception classes the embedded fragments can raise:
`json.JSONDecodeError`, `TypeError`, `AttributeError` (the tuple caught in
`process_admission_data`), and `ValueError` (raised by `int(...)` and by
`query_programs` when no collection is open). -/
inductive PyErr where
  | jsonDecodeError
  | typeError
  | attributeError
  | valueError
deriving Repr, DecidableEq

/-- The single-quote character, written via its code point. -/
def squote : Char := Char.ofNat 39

/-- The double-quote character. -/
def dquote : Char := Char.ofNat 34

/-- Python truthiness for the modelled values. -/
def pyTruthy : PyVal → Bool
  | .none => false
  | .bool b => b
  | .int n => n != 0
  | .str s => s != ""
  | .list xs => !xs.isEmpty
  | .dict kvs => !kvs.isEmpty

mutual

/-- Python `str(v)` for the modelled values (used by f-string interpolation). -/
def pyStr : PyVal → String
  | .none => "None"
  | .bool true => "True"
  | .bool false => "False"
  | .int n => toString n
  | .str s => s
  | .list xs => "[" ++ ", ".intercalate (pyReprList xs) ++ "]"
  | .dict kvs => "\x7b" ++ ", ".intercalate (pyReprKVs kvs) ++ "\x7d"

/-- Python `repr(v)` (containers display their string elements quoted). -/
def pyRepr : PyVal → String
  | .str s => String.singleton squote ++ s ++ String.singleton squote
  | v => pyStr v

def pyReprList : List PyVal → List String
  | [] => []
  | v :: vs => pyRepr v :: pyReprList vs

def pyReprKVs : List (String × PyVal) → List String
  | [] => []
  | (k, v) :: kvs =>
      (String.singleton squote ++ k ++ String.singleton squote ++ ": " ++ pyRepr v) :: pyReprKVs kvs

end

/-- Python `d.get(key, default)` on a dict. -/
def dictGet (kvs : List (String × PyVal)) (key : String) (dflt : PyVal) : PyVal :=
  (kvs.lookup key).getD dflt

/-- Python iteration `for x in v`: lists yield their elements, dicts their
keys, strings their characters; other values raise `TypeError`. -/
def pyIter : PyVal → Except PyErr (List PyVal)
  | .list xs => .ok xs
  | .dict kvs => .ok (kvs.map fun kv => .str kv.1)
  | .str s => .ok (s.toList.map fun c => .str (String.singleton c))
  | _ => .error .typeError

/-- The interpolation `{case.get(key, 'N/A')}` for one field. -/
def caseField (kvs : List (String × PyVal)) (key : String) : String :=
  pyStr (dictGet kvs key (.str "N/A"))

/-- Source lines 66–70: the sentence built before the optional note. -/
def caseBase (kvs : List (String × PyVal)) : String :=
  "录取案例(" ++ caseField kvs "录取时间" ++ "): " ++
  caseField kvs "录取结果" ++ "。" ++
  "申请者背景: " ++ caseField kvs "学校（档次）" ++ " " ++
  caseField kvs "本科专业" ++ "专业，" ++
  "GPA/Rank " ++ caseField kvs "GPA/Rank" ++ "，" ++
  "科研经历 " ++ caseField kvs "科研经历" ++ "，" ++
  "实习经历 " ++ caseField kvs "实习经历" ++ "。"

/-- Source lines 66–73: the body of the per-case loop in
`process_admission_data`, rendering one admission case to a sentence.
On a non-dict element the first `case.get(...)` attribute access raises
`AttributeError`; on a dict every `.get` succeeds. -/
def caseText : PyVal → Except PyErr String
  | .dict kvs =>
      if pyTruthy (dictGet kvs "其他（语言/推荐信）" .none) then
        .ok (caseBase kvs ++ "其他信息: " ++
          pyStr (dictGet kvs "其他（语言/推荐信）" (.str "")))
      else
        .ok (caseBase kvs)
  | _ => .error .attributeError

/-- Source line 61: `admission_data_str.replace("'", '"')`. -/
def replaceQuotes (s : String) : String :=
  s.replace (String.singleton squote) (String.singleton dquote)

/-- The `cases` accumulation loop of source lines 64–73. -/
def mapCases : List PyVal → Except PyErr (List String)
  | [] => .ok []
  | c :: cs =>
      match caseText c with
      | .error e => .error e
      | .ok t =>
          match mapCases cs with
          | .error e => .error e
          | .ok ts => .ok (t :: ts)

/-- Source lines 60–75: the `try` body of `process_admission_data`.  The
`json.loads` call is the external JSON parser, passed in as `parse`
(failure of `parse` models `json.JSONDecodeError`). -/
def admissionTryBody (parse : String → Except Unit PyVal) (s : String) :
    Except PyErr String :=
  match parse (replaceQuotes s) with
  | .error _ => .error .jsonDecodeError
  | .ok v =>
      match pyIter v with
      | .error e => .error e
      | .ok items =>
          match mapCases items with
          | .error e => .error e
          | .ok texts => .ok (" ".intercalate texts)

/-- The exception tuple caught on source line 76:
`except (json.JSONDecodeError, TypeError, AttributeError)`. -/
def caughtByAdmissionHandler : PyErr → Bool
  | .jsonDecodeError => true
  | .typeError => true
  | .attributeError => true
  | .valueError => false

/-- Source lines 54–77: `process_admission_data`.  A `.error` result would
model an uncaught exception propagating out of the function. -/
def process_admission_data (parse : String → Except Unit PyVal) (s : String) :
    Except PyErr String :=
  if s = "" ∨ s = "null" then .ok "暂无录取案例数据"
  else
    match admissionTryBody parse s with
    | .ok t => .ok t
    | .error e =>
        if caughtByAdmissionHandler e then .ok ("录取数据: " ++ s) else .error e

/-! ### Python string primitives used by the metadata coercions -/

/-- Characters removed by Python `str.strip()` (the ASCII whitespace set;
the rare non-ASCII Unicode spaces is not exercised by the code). -/
def pyIsSpace (c : Char) : Bool :=
  c.toNat = 32 || c.toNat = 9 || c.toNat = 10 ||
  c.toNat = 13 || c.toNat = 11 || c.toNat = 12

def pyStripList (cs : List Char) : List Char :=
  ((cs.dropWhile pyIsSpace).reverse.dropWhile pyIsSpace).reverse

/-- Python `str.strip()`. -/
def pyStrip (s : String) : String := ⟨pyStripList s.toList⟩

/-- The value of a Unicode character of category `Nd` (decimal digit), on
the ranges the model covers: ASCII `0`–`9`, Arabic-Indic `٠`–`٩`
(U+0660–U+0669) and fullwidth `０`–`９` (U+FF10–U+FF19).  These are the
characters Python `int(...)` accepts as digits. -/
def pyDecimalVal (c : Char) : Option Nat :=
  if 48 ≤ c.toNat ∧ c.toNat ≤ 57 then some (c.toNat - 48)
  else if 0x0660 ≤ c.toNat ∧ c.toNat ≤ 0x0669 then some (c.toNat - 0x0660)
  else if 0xFF10 ≤ c.toNat ∧ c.toNat ≤ 0xFF19 then some (c.toNat - 0xFF10)
  else none

/-- Characters with Unicode `Numeric_Type=Digit` but not `Decimal`:
superscript and subscript digits.  Python `str.isdigit` accepts them but
`int(...)` rejects them. -/
def pyDigitNotDecimal (c : Char) : Bool :=
  c.toNat = 0x00B2 || c.toNat = 0x00B3 || c.toNat = 0x00B9 || c.toNat = 0x2070 ||
  (0x2074 ≤ c.toNat && c.toNat ≤ 0x2079) || (0x2080 ≤ c.toNat && c.toNat ≤ 0x2089)

/-- A character for which Python `str.isdigit` is true (on the modelled
ranges). -/
def pyIsDigitChar (c : Char) : Bool := (pyDecimalVal c).isSome || pyDigitNotDecimal c

/-- Python `str.isdigit()`: nonempty and every character a digit. -/
def pyIsDigitStr (s : String) : Bool := s != "" && s.toList.all pyIsDigitChar

/-- Parses a nonempty run of decimal-digit characters, the digit part of
Python `int(...)`; any non-decimal character raises `ValueError`. -/
def decimalValue (cs : List Char) : Except PyErr Nat :=
  if cs.isEmpty then .error .valueError
  else if cs.all fun c => (pyDecimalVal c).isSome then
    .ok (cs.foldl (fun a c => a * 10 + (pyDecimalVal c).getD 0) 0)
  else .error .valueError

/-- Python `int(s)` on a string: strip whitespace, optional sign, then a
nonempty run of decimal digits; anything else raises `ValueError`. -/
def pyIntOfStr (s : String) : Except PyErr Int :=
  match pyStripList s.toList with
  | [] => .error .valueError
  | c :: rest =>
      if c.toNat = 43 then (decimalValue rest).map Int.ofNat
      else if c.toNat = 45 then (decimalValue rest).map fun n => -(n : Int)
      else (decimalValue (c :: rest)).map Int.ofNat

/-! ### Record synthesis: metadata, ids and document text -/

/-- One source row, after `pd.read_csv(...).fillna('')` (every field read
as its string form; missing values are the empty string). -/
structure SourceRow where
  program_name : String
  university : String
  region : String
  tier : String
  duration : String
  language : String
  degree_type : String
  pros : String
  cons : String
  admission_preference : String
  application_notes : String
  scholarship : String
  admission_data : String
  admission_data_count : String
  internship_required : String
  thesis_required : String
  other_info : String
  other_notes : String
deriving Repr, DecidableEq

/-- The flattened metadata record built on source lines 129–140. -/
structure Meta where
  program_name : String
  university : String
  region : String
  tier : String
  duration : String
  language : String
  degree_type : String
  internship_required : Bool
  thesis_required : Bool
  admission_data_count : Int
deriving Repr, DecidableEq

/-- Source lines 137–138: `True if str(x).strip() == '是' else False`. -/
def boolMeta (v : String) : Bool :=
  if pyStrip v = "是" then true else false

/-- Source line 139: `int(x) if str(x).isdigit() else 0`. -/
def admission_count_meta (v : String) : Except PyErr Int :=
  if pyIsDigitStr v then pyIntOfStr v else .ok 0

/-- Source lines 129–140: the metadata dict for one row. -/
def mkMetadata (row : SourceRow) : Except PyErr Meta :=
  match admission_count_meta row.admission_data_count with
  | .error e => .error e
  | .ok cnt =>
      .ok { program_name := row.program_name
            university := row.university
            region := row.region
            tier := row.tier
            duration := row.duration
            language := row.language
            degree_type := row.degree_type
            internship_required := boolMeta row.internship_required
            thesis_required := boolMeta row.thesis_required
            admission_data_count := cnt }

/-- Decimal digit character for a value below ten. -/
def digitChar (d : Nat) : Char := Char.ofNat (48 + d)

/-- The decimal digit string of a natural number, most significant digit
first — Python `str(index)`. -/
def natDecimal (n : Nat) : List Char :=
  if _h : n < 10 then [digitChar n]
  else natDecimal (n / 10) ++ [digitChar (n % 10)]
decreasing_by exact Nat.div_lt_self (by omega) (by omega)

def pyStrOfNat (n : Nat) : String := ⟨natDecimal n⟩

/-- Source line 144: `f"program_{index}"`. -/
def mkId (index : Nat) : String := "program_" ++ pyStrOfNat index

/-- Source lines 79–106: `create_document_text`. -/
def create_document_text (parse : String → Except Unit PyVal) (row : SourceRow) :
    Except PyErr String :=
  match process_admission_data parse row.admission_data with
  | .error e => .error e
  | .ok admission_text => .ok (pyStrip
    ("\n项目名称: " ++ row.program_name ++
     "\n所属大学: " ++ row.university ++
     "\n地区: " ++ row.region ++
     "\n项目等级: " ++ row.tier ++
     "\n学制: " ++ row.duration ++
     "\n授课语言: " ++ row.language ++
     "\n学位类型: " ++ row.degree_type ++
     "\n\n项目优点: " ++ row.pros ++
     "\n\n项目缺点: " ++ row.cons ++
     "\n\n招生偏好: " ++ row.admission_preference ++
     "\n\n申请注意事项: " ++ row.application_notes ++
     "\n\n奖学金信息: " ++ row.scholarship ++
     "\n\n过往录取案例: " ++ admission_text ++
     "\n\n其他信息: " ++ row.other_info ++ " " ++ row.other_notes ++
     "\n        "))

/-- Source lines 123–144: the per-row loop body of
`load_and_process_data`, accumulating documents, metadatas and ids. -/
def loadLoop (parse : String → Except Unit PyVal) :
    List SourceRow → Nat → Except PyErr (List String × List Meta × List String)
  | [], _ => .ok ([], [], [])
  | row :: rest, i =>
      match create_document_text parse row with
      | .error e => .error e
      | .ok doc =>
          match mkMetadata row with
          | .error e => .error e
          | .ok meta =>
              match loadLoop parse rest (i + 1) with
              | .error e => .error e
              | .ok (ds, ms, js) => .ok (doc :: ds, meta :: ms, mkId i :: js)

/-- Source lines 108–147: `load_and_process_data` (the CSV reading itself
is external; `rows` is the parsed, `fillna`-normalised frame). -/
def load_and_process_data (parse : String → Except Unit PyVal)
    (rows : List SourceRow) : Except PyErr (List String × List Meta × List String) :=
  loadLoop parse rows 0

/-! ### The Chroma client and collection model -/

/-- A collection's contents: the three parallel column lists that
`collection.add(documents=…, metadatas=…, ids=…)` appends to. -/
structure Collection where
  ids : List String
  docs : List String
  metas : List Meta
deriving Repr, DecidableEq

def emptyCollection : Collection := ⟨[], [], []⟩

/-- `collection.count()`. -/
def Collection.count (c : Collection) : Nat := c.ids.length

/-- `collection.add(...)` for one batch. -/
def Collection.addBatch (c : Collection) (bids bdocs : List String)
    (bmetas : List Meta) : Collection :=
  ⟨c.ids ++ bids, c.docs ++ bdocs, c.metas ++ bmetas⟩

/-- The persistent client: a map from collection name to collection. -/
def ClientMap := String → Option Collection

/-- Store-level exceptions of the modelled Chroma calls. -/
inductive StoreErr where
  | notFound
  | alreadyExists
  | deleteFailed
deriving Repr, DecidableEq

def clientErase (st : ClientMap) (name : String) : ClientMap :=
  fun n => if n = name then none else st n

def clientInsert (st : ClientMap) (name : String) (c : Collection) : ClientMap :=
  fun n => if n = name then some c else st n

/-- `client.delete_collection(name)`: raises if the collection is absent;
`deleteFails` injects an arbitrary store-level failure with the
collection left in place. -/
def delete_collection (st : ClientMap) (name : String) (deleteFails : Bool) :
    Except StoreErr ClientMap :=
  match st name with
  | none => .error .notFound
  | some _ =>
      if deleteFails then .error .deleteFailed else .ok (clientErase st name)

/-- `client.create_collection(name, embedding_function=…)`: raises if the
name already exists, else creates a fresh empty collection. -/
def chroma_create (st : ClientMap) (name : String) : Except StoreErr ClientMap :=
  match st name with
  | some _ => .error .alreadyExists
  | none => .ok (clientInsert st name emptyCollection)

/-- The progress prints of `create_collection`, as structured events. -/
inductive Msg where
  | deleted
  | notExist
  | created
  | batchOk (k : Nat)
  | batchFailed (k : Nat)
  | done (count : Nat)
deriving Repr, DecidableEq

/-- The slice `l[i:i+n]`. -/
def slice (l : List α) (i n : Nat) : List α := (l.drop i).take n

/-- Source line 169: `batch_size = 10`. -/
def batch_size : Nat := 10

/-- Source line 170: `total_batches = (len(documents) + batch_size - 1) // batch_size`,
also the number of iterations of `range(0, len(documents), batch_size)`. -/
def numBatches (documents : List String) : Nat :=
  (documents.length + batch_size - 1) / batch_size

/-- Source lines 174–191: the batch loop.  `bs` is the list of 0-based
batch numbers still to process; `addOk k` tells whether the
embed-and-add call for 1-based batch `k` succeeds (a failed `add`
commits nothing, per the gateway's atomic-failure contract).  On a
failure the `break` ends the loop with the collection as committed so
far. -/
def addBatches (documents ids : List String) (metadatas : List Meta)
    (addOk : Nat → Bool) : List Nat → Collection → Collection × List Msg
  | [], col => (col, [])
  | b :: bs, col =>
      if addOk (b + 1) then
        let col1 := col.addBatch (slice ids (b * batch_size) batch_size)
          (slice documents (b * batch_size) batch_size)
          (slice metadatas (b * batch_size) batch_size)
        let r := addBatches documents ids metadatas addOk bs col1
        (r.1, Msg.batchOk (b + 1) :: r.2)
      else (col, [Msg.batchFailed (b + 1)])

/-- Source lines 153–159: the recreate step.  The bare `except:` of line
158 catches every exception `delete_collection` can raise and prints the
collection-absent message, leaving the client state as it was. -/
def recreateStep (st : ClientMap) (name : String) (deleteFails : Bool)
    (recreate : Bool) : ClientMap × List Msg :=
  if recreate then
    match delete_collection st name deleteFails with
    | .ok st1 => (st1, [Msg.deleted])
    | .error _ => (st, [Msg.notExist])
  else (st, [])

/-- Source lines 149–193: `create_collection`.  The returned `PyVal` is
the Python return value (the function is annotated `-> None` and has no
`return` statement).  A `.error` models an exception propagating to the
caller. -/
def create_collection (st : ClientMap) (name : String) (documents : List String)
    (metadatas : List Meta) (ids : List String) (deleteFails : Bool)
    (addOk : Nat → Bool) (recreate : Bool) :
    Except StoreErr (ClientMap × List Msg × PyVal) :=
  let del := recreateStep st name deleteFails recreate
  match chroma_create del.1 name with
  | .error e => .error e
  | .ok st2 =>
      let r := addBatches documents ids metadatas addOk
        (List.range (numBatches documents)) emptyCollection
      .ok (clientInsert st2 name r.1,
        del.2 ++ [Msg.created] ++ r.2 ++ [Msg.done r.1.count],
        PyVal.none)

/-- The collection stored under `name` after `create_collection`
(`none` when the build itself raised). -/
def builtCollection (st : ClientMap) (name : String) (documents : List String)
    (metadatas : List Meta) (ids : List String) (deleteFails : Bool)
    (addOk : Nat → Bool) : Option Collection :=
  match create_collection st name documents metadatas ids deleteFails addOk true with
  | .ok r => r.1 name
  | .error _ => none

/-! ### The query path -/

/-- The payload of a successful `collection.query(...)` call (the nested
`[0]` lists of the Chroma results dict). -/
structure QueryResults where
  qids : List String
  documents : List String
  metadatas : List Meta
  distances : List ℚ
deriving Repr, DecidableEq

/-- The value `query_programs` hands back on its non-raising paths:
either the results dict of a successful query, or the literal `{}` of
source line 226. -/
inductive QueryReturn where
  | results (r : QueryResults)
  | emptyDict
deriving Repr, DecidableEq

/-- The caller-visible probe `ret.get('documents') is not None`,
separating a results dict from the bare `{}`. -/
def QueryReturn.hasDocumentsKey : QueryReturn → Bool
  | .results _ => true
  | .emptyDict => false

/-- Observable effects of `query_programs`. -/
inductive QueryEvent where
  | searchCalled
  | printedError (e : String)
deriving Repr, DecidableEq

/-- Source lines 211–226: `query_programs`.  `backend` is the outcome of
`collection.query(...)` — embedding the query text plus the store search,
both external.  The tuple also carries the client and collection handles
back out unchanged: the function assigns to neither. -/
def query_programs (st : ClientMap) (coll : Option Collection)
    (backend : Except String QueryResults) :
    Except PyErr QueryReturn × ClientMap × Option Collection × List QueryEvent :=
  match coll with
  | none => (.error .valueError, st, coll, [])
  | some c =>
      match backend with
      | .ok r => (.ok (.results r), st, some c, [.searchCalled])
      | .error e => (.ok .emptyDict, st, some c, [.searchCalled, .printedError e])

/-- One result block printed by `print_query_results` (lines 242–250). -/
structure PrintedResult where
  index : Nat
  similarity : ℚ
  program_name : String
  university : String
  region : String
  tier : String
  duration : String
  language : String
  admission_count : Option Int
deriving Repr, DecidableEq

/-- The result block printed for one `(document, metadata, distance)`
triple at 0-based position `p.1` (source lines 242–250); the similarity
on line 242 is `1 - distance`. -/
def printedOf (p : Nat × (String × Meta × ℚ)) : PrintedResult :=
  let m : Meta := p.2.2.1
  let d : ℚ := p.2.2.2
  { index := p.1 + 1
    similarity := 1 - d
    program_name := m.program_name
    university := m.university
    region := m.region
    tier := m.tier
    duration := m.duration
    language := m.language
    admission_count :=
      if 0 < m.admission_data_count then some m.admission_data_count
      else none }

/-- Source lines 228–250: `print_query_results`, as the list of printed
result blocks.  An empty return models the early `未找到符合条件的结果`
branch of lines 230–232. -/
def print_query_results (ret : QueryReturn) : List PrintedResult :=
  match ret with
  | .emptyDict => []
  | .results r =>
      if r.documents.isEmpty then []
      else (r.documents.zip (r.metadatas.zip r.distances)).enum.map printedOf

/-! ### Theorems -/

/-- `needle` occurs as a substring of `hay`. -/
def strContains (needle hay : String) : Prop :=
  ∃ p q, hay = p ++ needle ++ q

theorem caseText_error {c : PyVal} {e : PyErr} (h : caseText c = .error e) :
    e = .attributeError := by
  cases c <;> simp [caseText] at h <;> try exact h.symm
  · exact absurd h (by split <;> simp)

theorem mapCases_error {cs : List PyVal} {e : PyErr}
    (h : mapCases cs = .error e) : e = .attributeError := by
  induction cs with
  | nil => simp [mapCases] at h
  | cons c cs ih =>
      simp only [mapCases] at h
      cases hc : caseText c with
      | error e2 =>
          rw [hc] at h
          cases h
          exact caseText_error hc
      | ok t =>
          rw [hc] at h
          cases hm : mapCases cs with
          | error e2 =>
              rw [hm] at h
              cases h
              exact ih hm
          | ok ts => rw [hm] at h; simp at h

theorem pyIter_error {v : PyVal} {e : PyErr} (h : pyIter v = .error e) :
    e = .typeError := by
  cases v <;> simp [pyIter] at h <;> exact h.symm

/-- Every exception the `try` body of `process_admission_data` can raise
is in the caught tuple `(json.JSONDecodeError, TypeError, AttributeError)`. -/
theorem admissionTryBody_caught {parse : String → Except Unit PyVal}
    {s : String} {e : PyErr} (h : admissionTryBody parse s = .error e) :
    caughtByAdmissionHandler e = true := by
  unfold admissionTryBody at h
  cases hp : parse (replaceQuotes s) with
  | error u => rw [hp] at h; dsimp only at h; cases h; rfl
  | ok v =>
      rw [hp] at h
      dsimp only at h
      cases hi : pyIter v with
      | error e2 =>
          rw [hi] at h
          dsimp only at h
          cases h
          rw [pyIter_error hi]
          rfl
      | ok items =>
          rw [hi] at h
          dsimp only at h
          cases hm : mapCases items with
          | error e2 =>
              rw [hm] at h
              dsimp only at h
              cases h
              rw [mapCases_error hm]
              rfl
          | ok ts => rw [hm] at h; dsimp only at h; cases h

theorem caseField_eq {kvs : List (String × PyVal)} {key v : String}
    (h : kvs.lookup key = some (.str v)) : caseField kvs key = v := by
  simp [caseField, dictGet, h, pyStr]

theorem strContains_append_right {n a : String} (b : String)
    (h : strContains n a) : strContains n (a ++ b) := by
  obtain ⟨p, q, rfl⟩ := h
  exact ⟨p, q ++ b, by simp [String.append_assoc]⟩

theorem caseText_dict_contains (kvs : List (String × PyVal)) (term outc : String)
    (hterm : kvs.lookup "录取时间" = some (.str term))
    (houtc : kvs.lookup "录取结果" = some (.str outc)) :
    ∃ t, caseText (.dict kvs) = .ok t ∧ strContains term t ∧ strContains outc t := by
  have h1 : strContains term (caseBase kvs) := by
    refine ⟨"录取案例(", "): " ++ caseField kvs "录取结果" ++ "。" ++
      "申请者背景: " ++ caseField kvs "学校（档次）" ++ " " ++
      caseField kvs "本科专业" ++ "专业，" ++
      "GPA/Rank " ++ caseField kvs "GPA/Rank" ++ "，" ++
      "科研经历 " ++ caseField kvs "科研经历" ++ "，" ++
      "实习经历 " ++ caseField kvs "实习经历" ++ "。", ?_⟩
    simp [caseBase, caseField_eq hterm, String.append_assoc]
  have h2 : strContains outc (caseBase kvs) := by
    refine ⟨"录取案例(" ++ caseField kvs "录取时间" ++ "): ", "。" ++
      "申请者背景: " ++ caseField kvs "学校（档次）" ++ " " ++
      caseField kvs "本科专业" ++ "专业，" ++
      "GPA/Rank " ++ caseField kvs "GPA/Rank" ++ "，" ++
      "科研经历 " ++ caseField kvs "科研经历" ++ "，" ++
      "实习经历 " ++ caseField kvs "实习经历" ++ "。", ?_⟩
    simp [caseBase, caseField_eq houtc, String.append_assoc]
  cases htr : pyTruthy (dictGet kvs "其他（语言/推荐信）" PyVal.none) with
  | true =>
      refine ⟨caseBase kvs ++ "其他信息: " ++
        pyStr (dictGet kvs "其他（语言/推荐信）" (.str "")), ?_,
        strContains_append_right _ (strContains_append_right _ h1),
        strContains_append_right _ (strContains_append_right _ h2)⟩
      simp [caseText, htr]
  | false =>
      refine ⟨caseBase kvs, ?_, h1, h2⟩
      simp [caseText, htr]

/-- C2: synthesizing the admission-history narrative never raises; an
absent or `'null'` input yields the fixed no-cases sentinel; any parse
failure (malformed structure or wrong type) yields the raw value behind
the `录取数据:` label; and a well-formed single-case list yields a
narrative containing the case's admission term and outcome substrings. -/
theorem C2_admission_history_fallback (parse : String → Except Unit PyVal)
    (s : String) :
    (∃ t, process_admission_data parse s = .ok t) ∧
    ((s = "" ∨ s = "null") →
      process_admission_data parse s = .ok "暂无录取案例数据") ∧
    (∀ e, ¬(s = "" ∨ s = "null") → admissionTryBody parse s = .error e →
      process_admission_data parse s = .ok ("录取数据: " ++ s)) ∧
    (∀ kvs term outc, ¬(s = "" ∨ s = "null") →
      parse (replaceQuotes s) = .ok (.list [.dict kvs]) →
      kvs.lookup "录取时间" = some (.str term) →
      kvs.lookup "录取结果" = some (.str outc) →
      ∃ t, process_admission_data parse s = .ok t ∧
        strContains term t ∧ strContains outc t) := by
  refine ⟨?_, ?_, ?_, ?_⟩
  · unfold process_admission_data
    split
    · exact ⟨_, rfl⟩
    · cases hb : admissionTryBody parse s with
      | ok t => exact ⟨t, rfl⟩
      | error e =>
          dsimp only
          rw [admissionTryBody_caught hb]
          exact ⟨_, rfl⟩
  · intro hnull
    unfold process_admission_data
    rw [if_pos hnull]
  · intro e hnull hb
    unfold process_admission_data
    rw [if_neg hnull, hb]
    dsimp only
    rw [admissionTryBody_caught hb]
    rfl
  · intro kvs term outc hnull hp hterm houtc
    obtain ⟨t, hct, hc1, hc2⟩ := caseText_dict_contains kvs term outc hterm houtc
    refine ⟨" ".intercalate [t], ?_, ?_, ?_⟩
    · unfold process_admission_data
      rw [if_neg hnull]
      have hbody : admissionTryBody parse s = .ok (" ".intercalate [t]) := by
        unfold admissionTryBody
        rw [hp]
        simp only [pyIter, mapCases, hct]
      rw [hbody]
    · exact hc1
    · exact hc2

/-- The dictionary of the concrete well-formed admission case. -/
def kvsWF : List (String × PyVal) :=
  [("录取时间", PyVal.str "2024Fall"), ("录取结果", PyVal.str "AD")]

/-- A parser stub returning one well-formed admission case. -/
def parseWF : String → Except Unit PyVal := fun _ => .ok (.list [.dict kvsWF])

/-- A parser stub that always fails to decode. -/
def parseFail : String → Except Unit PyVal := fun _ => .error ()

theorem pyStr_str (s : String) : pyStr (.str s) = s := by
  simp [pyStr]

theorem caseField_val (kvs : List (String × PyVal)) (key v : String)
    (h : dictGet kvs key (.str "N/A") = .str v) : caseField kvs key = v := by
  unfold caseField
  rw [h]
  exact pyStr_str v

theorem caseBase_WF : caseBase kvsWF =
    "录取案例(2024Fall): AD。申请者背景: N/A N/A专业，GPA/Rank N/A，科研经历 N/A，实习经历 N/A。" := by
  unfold caseBase
  rw [caseField_val kvsWF "录取时间" "2024Fall" rfl,
    caseField_val kvsWF "录取结果" "AD" rfl,
    caseField_val kvsWF "学校（档次）" "N/A" rfl,
    caseField_val kvsWF "本科专业" "N/A" rfl,
    caseField_val kvsWF "GPA/Rank" "N/A" rfl,
    caseField_val kvsWF "科研经历" "N/A" rfl,
    caseField_val kvsWF "实习经历" "N/A" rfl]
  rfl

theorem processWF_eq : process_admission_data parseWF "x" = .ok (caseBase kvsWF) := by
  unfold process_admission_data
  rw [if_neg (by simp)]
  have hb : admissionTryBody parseWF "x" = .ok (" ".intercalate [caseBase kvsWF]) := by
    unfold admissionTryBody parseWF
    dsimp only
    simp only [pyIter, mapCases]
    rw [show caseText (.dict kvsWF) = .ok (caseBase kvsWF) from rfl]
  rw [hb]
  rfl

/-- Witness for C2 at concrete inputs: a decode failure falls back to the
labelled raw value, `"null"` yields the sentinel, and the single-case
narrative contains the term and outcome. -/
theorem C2_witness :
    process_admission_data parseFail "x" = .ok ("录取数据: " ++ "x") ∧
    process_admission_data parseWF "null" = .ok "暂无录取案例数据" ∧
    strContains "2024Fall"
      "录取案例(2024Fall): AD。申请者背景: N/A N/A专业，GPA/Rank N/A，科研经历 N/A，实习经历 N/A。" ∧
    strContains "AD"
      "录取案例(2024Fall): AD。申请者背景: N/A N/A专业，GPA/Rank N/A，科研经历 N/A，实习经历 N/A。" := by
  refine ⟨(C2_admission_history_fallback parseFail "x").2.2.1 PyErr.jsonDecodeError
      (by simp) rfl,
    (C2_admission_history_fallback parseWF "null").2.1 (Or.inr rfl), ?_, ?_⟩
  · obtain ⟨t, ht, h1, h2⟩ := (C2_admission_history_fallback parseWF "x").2.2.2
      kvsWF "2024Fall" "AD" (by simp) rfl rfl rfl
    have he : t = "录取案例(2024Fall): AD。申请者背景: N/A N/A专业，GPA/Rank N/A，科研经历 N/A，实习经历 N/A。" :=
      Except.ok.inj (ht.symm.trans (processWF_eq.trans (congrArg Except.ok caseBase_WF)))
    exact he ▸ h1
  · obtain ⟨t, ht, h1, h2⟩ := (C2_admission_history_fallback parseWF "x").2.2.2
      kvsWF "2024Fall" "AD" (by simp) rfl rfl rfl
    have he : t = "录取案例(2024Fall): AD。申请者背景: N/A N/A专业，GPA/Rank N/A，科研经历 N/A，实习经历 N/A。" :=
      Except.ok.inj (ht.symm.trans (processWF_eq.trans (congrArg Except.ok caseBase_WF)))
    exact he ▸ h2

/-! ### C6: boolean metadata coercion -/

/-- A concrete row whose internship flag is the sentinel padded with a
leading space, and whose thesis flag is `否`. -/
def rowC6 : SourceRow :=
  { program_name := "p", university := "u", region := "r", tier := "t",
    duration := "d", language := "l", degree_type := "g", pros := "",
    cons := "", admission_preference := "", application_notes := "",
    scholarship := "", admission_data := "", admission_data_count := "3",
    internship_required := " 是", thesis_required := "否",
    other_info := "", other_notes := "" }

def metaC6 : Meta :=
  { program_name := "p", university := "u", region := "r", tier := "t",
    duration := "d", language := "l", degree_type := "g",
    internship_required := true, thesis_required := false,
    admission_data_count := 3 }

/-- C6 counterexample: the source value `" 是"` differs from the sentinel
`"是"`, yet the flattened internship flag comes out `true` — the source
compares only after `.strip()`, so "true iff the source value equals the
sentinel" fails. -/
theorem C6_counterexample :
    mkMetadata rowC6 = .ok metaC6 ∧
    metaC6.internship_required = true ∧
    rowC6.internship_required ≠ "是" := by
  refine ⟨rfl, rfl, ?_⟩
  decide

/-- C6 amended: each boolean metadata field is `true` iff the source
value equals `"是"` after stripping leading and trailing whitespace;
every other value, the empty string included, yields `false`. -/
theorem C6_boolean_metadata (row : SourceRow) (m : Meta)
    (h : mkMetadata row = .ok m) :
    (m.internship_required = true ↔ pyStrip row.internship_required = "是") ∧
    (m.thesis_required = true ↔ pyStrip row.thesis_required = "是") := by
  unfold mkMetadata at h
  cases hc : admission_count_meta row.admission_data_count with
  | error e => rw [hc] at h; cases h
  | ok cnt =>
      rw [hc] at h
      dsimp only at h
      cases h
      constructor
      · by_cases hs : pyStrip row.internship_required = "是" <;> simp [boolMeta, hs]
      · by_cases hs : pyStrip row.thesis_required = "是" <;> simp [boolMeta, hs]

theorem C6_witness :
    metaC6.internship_required = true ∧ metaC6.thesis_required ≠ true :=
  ⟨(C6_boolean_metadata rowC6 metaC6 rfl).1.mpr (by decide),
   fun h => absurd ((C6_boolean_metadata rowC6 metaC6 rfl).2.mp h) (by decide)⟩

/-! ### C7: count metadata coercion -/

/-- The integer denoted by a string of decimal digit characters. -/
def digitsVal (v : String) : Nat :=
  v.toList.foldl (fun a c => a * 10 + (pyDecimalVal c).getD 0) 0

theorem pyDecimalVal_isSome_iff {c : Char} :
    (pyDecimalVal c).isSome = true ↔
      (48 ≤ c.toNat ∧ c.toNat ≤ 57) ∨ (0x660 ≤ c.toNat ∧ c.toNat ≤ 0x669) ∨
      (0xFF10 ≤ c.toNat ∧ c.toNat ≤ 0xFF19) := by
  unfold pyDecimalVal
  split_ifs with h1 h2 h3 <;> simp_all

theorem pyIsDigitChar_ranges {c : Char} (h : pyIsDigitChar c = true) :
    (48 ≤ c.toNat ∧ c.toNat ≤ 57) ∨ (0x660 ≤ c.toNat ∧ c.toNat ≤ 0x669) ∨
    (0xFF10 ≤ c.toNat ∧ c.toNat ≤ 0xFF19) ∨ c.toNat = 0xB2 ∨ c.toNat = 0xB3 ∨
    c.toNat = 0xB9 ∨ c.toNat = 0x2070 ∨ (0x2074 ≤ c.toNat ∧ c.toNat ≤ 0x2079) ∨
    (0x2080 ≤ c.toNat ∧ c.toNat ≤ 0x2089) := by
  unfold pyIsDigitChar pyDigitNotDecimal at h
  simp only [Bool.or_eq_true, decide_eq_true_eq, Bool.and_eq_true] at h
  rcases h with h | h
  · rcases pyDecimalVal_isSome_iff.mp h with h | h | h <;> tauto
  · tauto

theorem digit_not_space {c : Char} (h : pyIsDigitChar c = true) :
    pyIsSpace c = false := by
  have hr := pyIsDigitChar_ranges h
  simp only [pyIsSpace, Bool.or_eq_false_iff, decide_eq_false_iff_not]
  rcases hr with h | h | h | h | h | h | h | h | h <;> omega

theorem digit_not_sign {c : Char} (h : pyIsDigitChar c = true) :
    c.toNat ≠ 43 ∧ c.toNat ≠ 45 := by
  have hr := pyIsDigitChar_ranges h
  rcases hr with h | h | h | h | h | h | h | h | h <;> omega

theorem dropWhile_eq_self_of {p : Char → Bool} {l : List Char}
    (h : ∀ c ∈ l, p c = false) : l.dropWhile p = l := by
  cases l with
  | nil => rfl
  | cons c cs => simp [List.dropWhile_cons, h c (List.mem_cons_self c cs)]

theorem pyStripList_eq_self {l : List Char}
    (h : ∀ c ∈ l, pyIsSpace c = false) : pyStripList l = l := by
  unfold pyStripList
  rw [dropWhile_eq_self_of h, dropWhile_eq_self_of
    (fun c hc => h c (List.mem_reverse.mp hc)), List.reverse_reverse]

/-- C7 counterexample: Python classifies the superscript `²` as a digit,
so the guard passes, but `int("²")` raises `ValueError` — the coercion is
not raise-free. -/
theorem C7_counterexample :
    pyIsDigitStr "²" = true ∧
    admission_count_meta "²" = .error .valueError := by
  constructor <;> rfl

/-- C7 amended: the coercion yields the integer parse when the value is a
nonempty string of decimal digits, yields 0 when the digit test fails,
and raises `ValueError` on values that pass the digit test with a
non-decimal digit character (such as superscripts). -/
theorem C7_count_metadata (v : String) :
    (pyIsDigitStr v = false → admission_count_meta v = .ok 0) ∧
    ((∀ c ∈ v.toList, (pyDecimalVal c).isSome = true) → v.toList ≠ [] →
      admission_count_meta v = .ok (Int.ofNat (digitsVal v))) ∧
    (pyIsDigitStr v = true → (∃ c ∈ v.toList, pyDecimalVal c = none) →
      admission_count_meta v = .error .valueError) := by
  refine ⟨?_, ?_, ?_⟩
  · intro h
    unfold admission_count_meta
    rw [h]
    rfl
  · intro hdec hne
    have hdigit : ∀ c ∈ v.toList, pyIsDigitChar c = true := by
      intro c hc
      unfold pyIsDigitChar
      rw [hdec c hc]
      rfl
    have hv : pyIsDigitStr v = true := by
      unfold pyIsDigitStr
      have hvne : v ≠ "" := by
        intro hv0
        rw [hv0] at hne
        exact hne rfl
      have h1 : (v != "") = true := by simp [hvne]
      have h2 : v.toList.all pyIsDigitChar = true := List.all_eq_true.mpr hdigit
      rw [h1, h2]
      rfl
    cases hl : v.toList with
    | nil => exact absurd hl hne
    | cons c rest =>
        have hc0 : pyIsDigitChar c = true :=
          hdigit c (by rw [hl]; exact List.mem_cons_self c rest)
        obtain ⟨h43, h45⟩ := digit_not_sign hc0
        have hall : (c :: rest).all (fun c2 => (pyDecimalVal c2).isSome) = true := by
          rw [List.all_eq_true]
          intro c2 hc2
          exact hdec c2 (by rw [hl]; exact hc2)
        unfold admission_count_meta
        rw [hv, if_pos rfl]
        unfold pyIntOfStr
        rw [pyStripList_eq_self (fun c2 hc2 => digit_not_space (hdigit c2 hc2)), hl]
        dsimp only
        rw [if_neg h43, if_neg h45]
        unfold decimalValue
        rw [if_neg (by simp), if_pos hall]
        unfold digitsVal
        rw [hl]
        rfl
  · intro hd hbad
    obtain ⟨c0, hc0mem, hc0⟩ := hbad
    have hdigit : ∀ c ∈ v.toList, pyIsDigitChar c = true := by
      unfold pyIsDigitStr at hd
      simp only [Bool.and_eq_true, List.all_eq_true] at hd
      exact hd.2
    cases hl : v.toList with
    | nil => rw [hl] at hc0mem; cases hc0mem
    | cons c rest =>
        have hcd : pyIsDigitChar c = true :=
          hdigit c (by rw [hl]; exact List.mem_cons_self c rest)
        obtain ⟨h43, h45⟩ := digit_not_sign hcd
        have hnall : ¬((c :: rest).all (fun c2 => (pyDecimalVal c2).isSome) = true) := by
          intro hall
          have hm := List.all_eq_true.mp hall c0 (by rw [← hl]; exact hc0mem)
          rw [hc0] at hm
          cases hm
        unfold admission_count_meta
        rw [hd, if_pos rfl]
        unfold pyIntOfStr
        rw [pyStripList_eq_self (fun c2 hc2 => digit_not_space (hdigit c2 hc2)), hl]
        dsimp only
        rw [if_neg h43, if_neg h45]
        unfold decimalValue
        rw [if_neg (by simp), if_neg hnall]
        rfl

theorem C7_witness :
    admission_count_meta "42" = .ok 42 ∧
    admission_count_meta "x1" = .ok 0 ∧
    admission_count_meta "3²" = .error .valueError := by
  refine ⟨?_, ?_, ?_⟩
  · have h := (C7_count_metadata "42").2.1 (by decide) (by decide)
    rw [show Int.ofNat (digitsVal "42") = 42 from rfl] at h
    exact h
  · exact (C7_count_metadata "x1").1 (by decide)
  · exact (C7_count_metadata "3²").2.2 (by decide) ⟨Char.ofNat 0xB2, by decide, by decide⟩

/-! ### C8: similarity conversion -/

theorem zip3_map_dist (ds : List String) (ms : List Meta) (qs : List ℚ)
    (h1 : ms.length = ds.length) (h2 : qs.length = ds.length) :
    (ds.zip (ms.zip qs)).map (fun t => t.2.2) = qs := by
  induction ds generalizing ms qs with
  | nil =>
      cases qs with
      | nil => rfl
      | cons q qs => simp at h2
  | cons d ds ih =>
      cases ms with
      | nil => simp at h1
      | cons m ms =>
          cases qs with
          | nil => simp at h2
          | cons q qs =>
              simp only [List.zip_cons_cons, List.map_cons]
              rw [ih ms qs (by simpa using h1) (by simpa using h2)]

/-- C8: for every query result, the reported similarity for each entry is
exactly `1 - d` where `d` is the raw distance; no clamping is applied, so
out-of-range distances produce out-of-range similarities as-is. -/
theorem C8_similarity_conversion (r : QueryResults)
    (h1 : r.metadatas.length = r.documents.length)
    (h2 : r.distances.length = r.documents.length) :
    (print_query_results (.results r)).map (fun p => p.similarity) =
      r.distances.map (fun d => 1 - d) := by
  unfold print_query_results
  dsimp only
  by_cases he : r.documents.isEmpty = true
  · rw [if_pos he]
    have hd : r.documents = [] := List.isEmpty_iff.mp he
    have hq : r.distances = [] := List.eq_nil_of_length_eq_zero (by rw [h2, hd]; rfl)
    rw [hq]
    rfl
  · rw [if_neg he]
    rw [List.map_map,
      show ((fun p : PrintedResult => p.similarity) ∘ printedOf) =
        (fun p : Nat × (String × Meta × ℚ) => 1 - p.2.2.2) from rfl,
      show (fun p : Nat × (String × Meta × ℚ) => 1 - p.2.2.2) =
        ((fun t : String × Meta × ℚ => 1 - t.2.2) ∘ Prod.snd) from rfl,
      ← List.map_map, List.enum_map_snd,
      show (fun t : String × Meta × ℚ => 1 - t.2.2) =
        ((fun d : ℚ => 1 - d) ∘ fun t : String × Meta × ℚ => t.2.2) from rfl,
      ← List.map_map, zip3_map_dist r.documents r.metadatas r.distances h1 h2]

/-- A metadata record used in concrete query results. -/
def metaQ : Meta :=
  { program_name := "p", university := "u", region := "r", tier := "t",
    duration := "d", language := "l", degree_type := "g",
    internship_required := false, thesis_required := false,
    admission_data_count := 0 }

/-- A concrete query result with distances 0.2 and 1.2. -/
def rQ : QueryResults :=
  { qids := ["program_0", "program_1"], documents := ["a", "b"],
    metadatas := [metaQ, metaQ], distances := [1/5, 6/5] }

theorem C8_witness :
    (print_query_results (.results rQ)).map (fun p => p.similarity) =
      [1 - (1/5 : ℚ), 1 - (6/5 : ℚ)] ∧
    (1 : ℚ) - 1/5 = 4/5 ∧
    (1 : ℚ) - 6/5 = -(1/5) ∧
    ¬((0 : ℚ) ≤ -(1/5)) := by
  refine ⟨?_, by norm_num, by norm_num, by norm_num⟩
  have h := C8_similarity_conversion rQ rfl rfl
  rw [h]
  rfl

/-! ### C9: query rejected when no collection is open -/

/-- C9: with no open collection, `query_programs` raises the
not-initialized `ValueError` at once: for every backend outcome the
result is the same error, no search or embedding event is emitted, and
the client and collection handles are returned unchanged. -/
theorem C9_query_without_collection (st : ClientMap)
    (backend : Except String QueryResults) :
    query_programs st none backend = (.error .valueError, st, none, []) :=
  rfl

/-! ### C3: query-time error handling -/

/-- C3 counterexample: with an open collection and a failing
backend/search call, `query_programs` does not propagate the failure: it
returns normally with the literal `{}` (so the caller sees no
exception), contradicting the claim that the failure aborts the query
with an error. -/
theorem C3_counterexample :
    (query_programs (fun _ => none) (some emptyCollection) (.error "boom")).1 =
      .ok .emptyDict :=
  rfl

/-- C3 amended: a backend/search failure during query execution is
caught inside `query_programs`: the error is printed and the literal
`{}` is returned instead of propagating; the `{}` lacks the `documents`
key, so it is distinguishable from any successful query's results dict
(in particular an empty one). -/
theorem C3_query_error_swallowed (st : ClientMap) (c : Collection)
    (emsg : String) (r : QueryResults) :
    (query_programs st (some c) (.error emsg)).1 = .ok .emptyDict ∧
    (query_programs st (some c) (.error emsg)).2.2.2 =
      [.searchCalled, .printedError emsg] ∧
    (query_programs st (some c) (.ok r)).1 = .ok (.results r) ∧
    QueryReturn.hasDocumentsKey (.results r) = true ∧
    QueryReturn.hasDocumentsKey .emptyDict = false :=
  ⟨rfl, rfl, rfl, rfl, rfl⟩

/-! ### Decimal ids: `mkId` is injective -/

theorem digitChar_toNat : ∀ d, d < 10 → (digitChar d).toNat = 48 + d := by
  decide

theorem readDecimal_aux (n : Nat) : ∀ a : Nat,
    (natDecimal n).foldl (fun x c => x * 10 + (c.toNat - 48)) a =
      a * 10 ^ (natDecimal n).length + n := by
  induction n using Nat.strong_induction_on with
  | _ n ih =>
      intro a
      rw [natDecimal]
      by_cases h : n < 10
      · rw [dif_pos h]
        simp only [List.foldl_cons, List.foldl_nil, List.length_cons,
          List.length_nil, pow_one, digitChar_toNat n h, zero_add]
        omega
      · rw [dif_neg h, List.foldl_append,
          ih (n / 10) (Nat.div_lt_self (by omega) (by omega)) a,
          List.length_append]
        simp only [List.foldl_cons, List.foldl_nil, List.length_cons,
          List.length_nil, digitChar_toNat (n % 10) (Nat.mod_lt _ (by omega))]
        have hdm := Nat.div_add_mod n 10
        have hr : (a * 10 ^ (natDecimal (n / 10)).length + n / 10) * 10 +
            (48 + n % 10 - 48) =
            a * (10 ^ (natDecimal (n / 10)).length * 10) +
              (10 * (n / 10) + n % 10) := by
          have h48 : 48 + n % 10 - 48 = n % 10 := by omega
          rw [h48]
          ring
        rw [hr, hdm,
          show (10:Nat) ^ ((natDecimal (n / 10)).length + (0 + 1)) =
            10 ^ (natDecimal (n / 10)).length * 10 from by
              rw [show (0:Nat) + 1 = 1 from rfl, pow_succ]]

theorem natDecimal_inj {m n : Nat} (h : natDecimal m = natDecimal n) :
    m = n := by
  have hm := readDecimal_aux m 0
  have hn := readDecimal_aux n 0
  rw [h] at hm
  simp only [Nat.zero_mul, Nat.zero_add] at hm hn
  exact hm.symm.trans hn

theorem mkId_inj : Function.Injective mkId := by
  intro m n h
  unfold mkId pyStrOfNat at h
  have hd := congrArg String.data h
  simp only [String.data_append] at hd
  exact natDecimal_inj (List.append_cancel_left hd)

theorem ids_nodup (N : Nat) : ((List.range N).map mkId).Nodup :=
  (List.nodup_range N).map mkId_inj

/-! ### The batch loop -/

theorem slice_zero (l : List α) (n : Nat) : slice l 0 n = l.take n := by
  unfold slice
  rw [List.drop_zero]

theorem slice_append (l : List α) (i m n : Nat) :
    slice l i m ++ slice l (i + m) n = slice l i (m + n) := by
  unfold slice
  rw [show List.drop (i + m) l = List.drop m (List.drop i l) from by
        rw [List.drop_drop],
    List.take_add]

/-- Running the loop over batch numbers `a, a+1, …, a+m-1` when every one
of those batches succeeds: all their slices are appended in order. -/
theorem addBatches_all_ok (D I : List String) (M : List Meta)
    (addOk : Nat → Bool) (m : Nat) : ∀ (a : Nat) (col : Collection),
    (∀ j, a < j → j ≤ a + m → addOk j = true) →
    addBatches D I M addOk (List.range' a m) col =
      (⟨col.ids ++ slice I (a * batch_size) (m * batch_size),
        col.docs ++ slice D (a * batch_size) (m * batch_size),
        col.metas ++ slice M (a * batch_size) (m * batch_size)⟩,
       (List.range' a m).map fun b => Msg.batchOk (b + 1)) := by
  induction m with
  | zero =>
      intro a col hok
      simp [addBatches, slice]
  | succ m ih =>
      intro a col hok
      rw [List.range'_succ]
      simp only [addBatches]
      rw [if_pos (hok (a + 1) (by omega) (by omega))]
      rw [ih (a + 1) _ (fun j h1 h2 => hok j (by omega) (by omega))]
      rw [Prod.ext_iff]
      dsimp only
      constructor
      · simp only [Collection.addBatch, Collection.mk.injEq]
        refine ⟨?_, ?_, ?_⟩ <;>
          rw [List.append_assoc,
            show (a + 1) * batch_size = a * batch_size + batch_size from by ring,
            slice_append,
            show batch_size + m * batch_size = (m + 1) * batch_size from by ring]
      · rw [List.map_cons]

/-- Running the loop over batch numbers `a, …, a+m-1` when batches
`a+1, …, k-1` (1-based) succeed and batch `k` fails: exactly the slices
of the batches before `k` are appended, and the loop `break`s with the
failure message for `k`. -/
theorem addBatches_fail (D I : List String) (M : List Meta)
    (addOk : Nat → Bool) (k : Nat) (hk : addOk k = false) (m : Nat) :
    ∀ (a : Nat) (col : Collection),
    (∀ j, a < j → j < k → addOk j = true) → a < k → k ≤ a + m →
    addBatches D I M addOk (List.range' a m) col =
      (⟨col.ids ++ slice I (a * batch_size) ((k - 1 - a) * batch_size),
        col.docs ++ slice D (a * batch_size) ((k - 1 - a) * batch_size),
        col.metas ++ slice M (a * batch_size) ((k - 1 - a) * batch_size)⟩,
       ((List.range' a (k - 1 - a)).map fun b => Msg.batchOk (b + 1)) ++
         [Msg.batchFailed k]) := by
  induction m with
  | zero => intro a col hok hak hkm; omega
  | succ m ih =>
      intro a col hok hak hkm
      rw [List.range'_succ]
      by_cases hek : a + 1 = k
      · have hf : addOk (a + 1) = false := by rw [hek]; exact hk
        simp only [addBatches]
        rw [if_neg (by simp [hf])]
        have h0 : k - 1 - a = 0 := by omega
        rw [h0, hek]
        simp [slice]
      · have hsucc : addOk (a + 1) = true := hok (a + 1) (by omega) (by omega)
        simp only [addBatches]
        rw [if_pos hsucc]
        rw [ih (a + 1) _ (fun j h1 h2 => hok j (by omega) h2) (by omega) (by omega)]
        rw [Prod.ext_iff]
        dsimp only
        have harith : k - 1 - a = (k - 1 - (a + 1)) + 1 := by omega
        have hbs : batch_size + (k - 1 - (a + 1)) * batch_size =
            ((k - 1 - (a + 1)) + 1) * batch_size := by ring
        constructor
        · simp only [Collection.addBatch, Collection.mk.injEq]
          refine ⟨?_, ?_, ?_⟩ <;>
            rw [List.append_assoc,
              show (a + 1) * batch_size = a * batch_size + batch_size from by ring,
              slice_append, hbs, harith]
        · rw [harith, List.range'_succ, List.map_cons]
          rfl

/-! ### Runs of `create_collection` -/

theorem recreateStep_name_none (st : ClientMap) (name : String) :
    (recreateStep st name false true).1 name = none := by
  unfold recreateStep delete_collection
  rw [if_pos rfl]
  cases h : st name with
  | none =>
      dsimp only
      exact h
  | some c =>
      dsimp only
      rw [if_neg (by simp)]
      dsimp only
      simp [clientErase]

theorem recreateStep_of_absent (st : ClientMap) (name : String) (df : Bool)
    (h : st name = none) :
    recreateStep st name df true = (st, [Msg.notExist]) := by
  unfold recreateStep delete_collection
  rw [if_pos rfl, h]

theorem recreateStep_of_deleteFails (st : ClientMap) (name : String)
    (c : Collection) (h : st name = some c) :
    recreateStep st name true true = (st, [Msg.notExist]) := by
  unfold recreateStep delete_collection
  rw [if_pos rfl, h]
  dsimp only
  rw [if_pos rfl]

/-- Whenever the recreate step leaves the name unbound, the build reaches
the batch loop on a fresh empty collection and returns `None`. -/
theorem create_collection_run' (st : ClientMap) (name : String)
    (D : List String) (M : List Meta) (I : List String) (addOk : Nat → Bool)
    (df : Bool) (hnone : (recreateStep st name df true).1 name = none) :
    create_collection st name D M I df addOk true =
      .ok (clientInsert (clientInsert (recreateStep st name df true).1 name
              emptyCollection) name
            (addBatches D I M addOk (List.range (numBatches D)) emptyCollection).1,
          (recreateStep st name df true).2 ++ [Msg.created] ++
            (addBatches D I M addOk (List.range (numBatches D)) emptyCollection).2 ++
            [Msg.done (addBatches D I M addOk (List.range (numBatches D))
                emptyCollection).1.count],
          PyVal.none) := by
  unfold create_collection
  dsimp only
  rw [show chroma_create (recreateStep st name df true).1 name =
      .ok (clientInsert (recreateStep st name df true).1 name emptyCollection) from by
        unfold chroma_create
        rw [hnone]]

theorem create_collection_run (st : ClientMap) (name : String)
    (D : List String) (M : List Meta) (I : List String) (addOk : Nat → Bool) :
    create_collection st name D M I false addOk true =
      .ok (clientInsert (clientInsert (recreateStep st name false true).1 name
              emptyCollection) name
            (addBatches D I M addOk (List.range (numBatches D)) emptyCollection).1,
          (recreateStep st name false true).2 ++ [Msg.created] ++
            (addBatches D I M addOk (List.range (numBatches D)) emptyCollection).2 ++
            [Msg.done (addBatches D I M addOk (List.range (numBatches D))
                emptyCollection).1.count],
          PyVal.none) :=
  create_collection_run' st name D M I addOk false (recreateStep_name_none st name)

/-- The loop result when batches `1, …, k-1` succeed and batch `k` fails:
exactly the first `(k-1)·10` rows are committed. -/
theorem addBatches_run_fail (D I : List String) (M : List Meta)
    (addOk : Nat → Bool) (k : Nat)
    (h1k : 1 ≤ k) (hk : k ≤ numBatches D)
    (hpre : ∀ j, 1 ≤ j → j < k → addOk j = true)
    (hfail : addOk k = false) :
    addBatches D I M addOk (List.range (numBatches D)) emptyCollection =
      (⟨I.take ((k - 1) * batch_size), D.take ((k - 1) * batch_size),
        M.take ((k - 1) * batch_size)⟩,
       ((List.range' 0 (k - 1)).map fun b => Msg.batchOk (b + 1)) ++
         [Msg.batchFailed k]) := by
  rw [List.range_eq_range',
    addBatches_fail D I M addOk k hfail (numBatches D) 0 emptyCollection
      (fun j h1 h2 => hpre j (by omega) h2) (by omega) (by omega)]
  simp only [emptyCollection, List.nil_append, Nat.zero_mul, Nat.sub_zero,
    slice_zero]

/-- The loop result when every batch succeeds: everything is committed. -/
theorem addBatches_run_ok (D I : List String) (M : List Meta)
    (addOk : Nat → Bool) (hok : ∀ j, addOk j = true)
    (hi : I.length = D.length) (hm : M.length = D.length) :
    addBatches D I M addOk (List.range (numBatches D)) emptyCollection =
      (⟨I, D, M⟩,
       (List.range' 0 (numBatches D)).map fun b => Msg.batchOk (b + 1)) := by
  have hDB : D.length ≤ numBatches D * batch_size := by
    unfold numBatches batch_size
    omega
  rw [List.range_eq_range',
    addBatches_all_ok D I M addOk (numBatches D) 0 emptyCollection
      (fun j h1 h2 => hok j)]
  simp only [emptyCollection, List.nil_append, Nat.zero_mul, slice_zero]
  rw [List.take_of_length_le (by omega), List.take_of_length_le (by omega),
    List.take_of_length_le (by omega)]

theorem clientInsert_self (st : ClientMap) (name : String) (c : Collection) :
    clientInsert st name c name = some c := by
  simp [clientInsert]

/-! ### C1: batch fail-fast -/

/-- C1: for a synthesized dataset, if batches before `k` succeed and
batch `k` fails, the built collection holds exactly the `(k-1)·10` rows
of the earlier batches — `(k-1)·10` items, and no id of batch `k` or any
later batch is present. -/
theorem C1_batch_fail_fast (st : ClientMap) (name : String)
    (documents : List String) (metadatas : List Meta) (ids : List String)
    (addOk : Nat → Bool) (k : Nat)
    (hid : ids = (List.range documents.length).map mkId)
    (h1k : 1 ≤ k) (hk : k ≤ numBatches documents)
    (hpre : ∀ j, 1 ≤ j → j < k → addOk j = true)
    (hfail : addOk k = false) :
    builtCollection st name documents metadatas ids false addOk =
      some ⟨ids.take ((k - 1) * batch_size),
            documents.take ((k - 1) * batch_size),
            metadatas.take ((k - 1) * batch_size)⟩ ∧
    (ids.take ((k - 1) * batch_size)).length = (k - 1) * batch_size ∧
    ∀ j, (k - 1) * batch_size ≤ j → j < documents.length →
      mkId j ∉ ids.take ((k - 1) * batch_size) := by
  have hcN : (k - 1) * batch_size < documents.length := by
    unfold numBatches batch_size at hk
    unfold batch_size
    omega
  have hlen : ids.length = documents.length := by
    rw [hid, List.length_map, List.length_range]
  refine ⟨?_, ?_, ?_⟩
  · unfold builtCollection
    rw [create_collection_run,
      addBatches_run_fail documents ids metadatas addOk k h1k hk hpre hfail]
    exact clientInsert_self _ _ _
  · rw [List.length_take]
    omega
  · intro j hj1 hj2 hmem
    rw [hid, ← List.map_take, List.take_range] at hmem
    obtain ⟨i, hi_mem, hi_eq⟩ := List.mem_map.mp hmem
    have hij : i = j := mkId_inj hi_eq
    have : i < min ((k - 1) * batch_size) documents.length :=
      List.mem_range.mp hi_mem
    omega

/-- 20 identical document rows used in the concrete runs. -/
def docs20 : List String := List.replicate 20 "d"

def metas20 : List Meta := List.replicate 20 metaQ

def ids20 : List String := (List.range 20).map mkId

theorem C1_witness :
    builtCollection (fun _ => none) "c" docs20 metas20 ids20 false
        (fun kk => kk == 1) =
      some ⟨ids20.take 10, docs20.take 10, metas20.take 10⟩ ∧
    (ids20.take 10).length = 10 ∧
    mkId 15 ∉ ids20.take 10 := by
  obtain ⟨h1, h2, h3⟩ := C1_batch_fail_fast (fun _ => none) "c" docs20 metas20
    ids20 (fun kk => kk == 1) 2 rfl (by decide) (by decide)
    (by
      intro j hj1 hj2
      have hj : j = 1 := by omega
      rw [hj]
      rfl)
    rfl
  exact ⟨h1, h2, h3 15 (by decide) (by decide)⟩

/-! ### C4: what the build reports on failure -/

/-- The Python return value of a completed `create_collection` call. -/
def buildRet (st : ClientMap) (name : String) (D : List String) (M : List Meta)
    (I : List String) (deleteFails : Bool) (addOk : Nat → Bool) : Option PyVal :=
  match create_collection st name D M I deleteFails addOk true with
  | .ok r => some r.2.2
  | .error _ => none

/-- The progress log of a completed `create_collection` call. -/
def buildLog (st : ClientMap) (name : String) (D : List String) (M : List Meta)
    (I : List String) (deleteFails : Bool) (addOk : Nat → Bool) :
    Option (List Msg) :=
  match create_collection st name D M I deleteFails addOk true with
  | .ok r => some r.2.1
  | .error _ => none

/-- C4 counterexample: two failing builds that commit different numbers
of items (0 vs 10, failing at batch 1 vs batch 2) return the identical
value `None` — the return value of `create_collection` carries neither
the committed count nor the failing batch index. -/
theorem C4_counterexample :
    buildRet (fun _ => none) "c" docs20 metas20 ids20 false (fun _ => false) =
      buildRet (fun _ => none) "c" docs20 metas20 ids20 false (fun kk => kk == 1) ∧
    buildRet (fun _ => none) "c" docs20 metas20 ids20 false (fun _ => false) =
      some PyVal.none ∧
    (builtCollection (fun _ => none) "c" docs20 metas20 ids20 false
        (fun _ => false)).map Collection.count = some 0 ∧
    (builtCollection (fun _ => none) "c" docs20 metas20 ids20 false
        (fun kk => kk == 1)).map Collection.count = some 10 :=
  ⟨rfl, rfl, rfl, rfl⟩

/-- C4 amended: the build returns `None` rather than statistics; when
batch `k` fails, the count of committed items and the failing batch
index are reported only through the printed progress messages. -/
theorem C4_failure_reporting (st : ClientMap) (name : String)
    (documents : List String) (metadatas : List Meta) (ids : List String)
    (addOk : Nat → Bool) (k : Nat)
    (hi : ids.length = documents.length)
    (h1k : 1 ≤ k) (hk : k ≤ numBatches documents)
    (hpre : ∀ j, 1 ≤ j → j < k → addOk j = true)
    (hfail : addOk k = false) :
    ∃ stf log,
      create_collection st name documents metadatas ids false addOk true =
        .ok (stf, log, PyVal.none) ∧
      Msg.batchFailed k ∈ log ∧
      Msg.done ((k - 1) * batch_size) ∈ log := by
  have hcN : (k - 1) * batch_size < documents.length := by
    unfold numBatches batch_size at hk
    unfold batch_size
    omega
  rw [create_collection_run,
    addBatches_run_fail documents ids metadatas addOk k h1k hk hpre hfail]
  refine ⟨_, _, rfl, ?_, ?_⟩
  · simp
  · rw [show (⟨ids.take ((k - 1) * batch_size),
        documents.take ((k - 1) * batch_size),
        metadatas.take ((k - 1) * batch_size)⟩ : Collection).count =
        (k - 1) * batch_size from by
      unfold Collection.count
      rw [List.length_take]
      omega]
    simp

theorem C4_witness :
    Msg.batchFailed 2 ∈ (buildLog (fun _ => none) "c" docs20 metas20 ids20
      false (fun kk => kk == 1)).getD [] ∧
    Msg.done 10 ∈ (buildLog (fun _ => none) "c" docs20 metas20 ids20
      false (fun kk => kk == 1)).getD [] := by
  obtain ⟨stf, log, heq, hm1, hm2⟩ := C4_failure_reporting (fun _ => none) "c"
    docs20 metas20 ids20 (fun kk => kk == 1) 2 rfl (by decide) (by decide)
    (by
      intro j hj1 hj2
      have hj : j = 1 := by omega
      rw [hj]
      rfl)
    rfl
  unfold buildLog
  rw [heq]
  exact ⟨hm1, hm2⟩

/-! ### C5: rebuild replaces rather than merges -/

/-- C5: building the same synthesized dataset twice in a row (the second
build starting from the client state the first one left) yields the same
collection contents both times: the count equals the dataset size and
the ids carry no duplicates. -/
theorem C5_rebuild_replaces (st : ClientMap) (name : String)
    (documents : List String) (metadatas : List Meta) (ids : List String)
    (addOk : Nat → Bool)
    (hid : ids = (List.range documents.length).map mkId)
    (hm : metadatas.length = documents.length)
    (hok : ∀ j, addOk j = true) :
    ∃ st1 log1 st2 log2,
      create_collection st name documents metadatas ids false addOk true =
        .ok (st1, log1, PyVal.none) ∧
      create_collection st1 name documents metadatas ids false addOk true =
        .ok (st2, log2, PyVal.none) ∧
      st1 name = some ⟨ids, documents, metadatas⟩ ∧
      st2 name = some ⟨ids, documents, metadatas⟩ ∧
      ids.length = documents.length ∧
      ids.Nodup := by
  have hlen : ids.length = documents.length := by
    rw [hid, List.length_map, List.length_range]
  have hrun := addBatches_run_ok documents ids metadatas addOk hok hlen hm
  refine ⟨_, _, _, _, by rw [create_collection_run, hrun],
    by rw [create_collection_run, hrun], ?_, ?_, hlen, hid ▸ ids_nodup _⟩
  · dsimp only
    exact clientInsert_self _ _ _
  · dsimp only
    exact clientInsert_self _ _ _

/-- The client state left by a first concrete successful build. -/
def stAfterC5 : ClientMap :=
  match create_collection (fun _ => none) "c" docs20 metas20 ids20 false
      (fun _ => true) true with
  | .ok r => r.1
  | .error _ => fun _ => none

theorem C5_witness :
    builtCollection (fun _ => none) "c" docs20 metas20 ids20 false
        (fun _ => true) = some ⟨ids20, docs20, metas20⟩ ∧
    builtCollection stAfterC5 "c" docs20 metas20 ids20 false
        (fun _ => true) = some ⟨ids20, docs20, metas20⟩ ∧
    ids20.Nodup := by
  obtain ⟨st1, log1, st2, log2, h1, h2, hs1, hs2, hlen, hnodup⟩ :=
    C5_rebuild_replaces (fun _ => none) "c" docs20 metas20 ids20
      (fun _ => true) rfl rfl (fun j => rfl)
  have hst1 : stAfterC5 = st1 := by
    unfold stAfterC5
    rw [h1]
  refine ⟨?_, ?_, hnodup⟩
  · unfold builtCollection
    rw [h1]
    exact hs1
  · unfold builtCollection
    rw [hst1, h2]
    exact hs2

/-! ### C10: delete failures are suppressed during recreate -/

/-- C10: every exception of the delete step is suppressed by the bare
`except:` — the build never surfaces a delete error, and it always
proceeds to the create call: when the name is free the fresh collection
is created (for either delete outcome), and when a store-level delete
failure leaves the old collection in place the error that surfaces is
the create call's duplicate-name error, not the delete error. -/
theorem C10_delete_suppressed (st : ClientMap) (name : String)
    (documents : List String) (metadatas : List Meta) (ids : List String)
    (addOk : Nat → Bool) (deleteFails : Bool) :
    (create_collection st name documents metadatas ids deleteFails addOk true ≠
        .error .notFound ∧
      create_collection st name documents metadatas ids deleteFails addOk true ≠
        .error .deleteFailed) ∧
    (st name = none →
      ∃ r, create_collection st name documents metadatas ids deleteFails addOk
          true = .ok r ∧ Msg.created ∈ r.2.1) ∧
    ((st name).isSome = true → deleteFails = true →
      create_collection st name documents metadatas ids deleteFails addOk true =
        .error .alreadyExists) ∧
    ((st name).isSome = true → deleteFails = false →
      ∃ r, create_collection st name documents metadatas ids deleteFails addOk
          true = .ok r ∧ Msg.created ∈ r.2.1) := by
  have habsent : st name = none →
      ∃ r, create_collection st name documents metadatas ids deleteFails addOk
        true = .ok r ∧ Msg.created ∈ r.2.1 := by
    intro h
    refine ⟨_, create_collection_run' st name documents metadatas ids addOk
      deleteFails (by rw [recreateStep_of_absent st name deleteFails h]; exact h),
      ?_⟩
    simp
  have hfails : (st name).isSome = true → deleteFails = true →
      create_collection st name documents metadatas ids deleteFails addOk true =
        .error .alreadyExists := by
    intro h hdf
    obtain ⟨c, hc⟩ := Option.isSome_iff_exists.mp h
    unfold create_collection
    dsimp only
    rw [hdf, recreateStep_of_deleteFails st name c hc]
    unfold chroma_create
    dsimp only
    rw [hc]
  have hdel : (st name).isSome = true → deleteFails = false →
      ∃ r, create_collection st name documents metadatas ids deleteFails addOk
        true = .ok r ∧ Msg.created ∈ r.2.1 := by
    intro h hdf
    rw [hdf]
    refine ⟨_, create_collection_run' st name documents metadatas ids addOk
      false (recreateStep_name_none st name), ?_⟩
    simp
  refine ⟨?_, habsent, hfails, hdel⟩
  cases hn : st name with
  | none =>
      obtain ⟨r, hr, _⟩ := habsent hn
      rw [hr]
      exact ⟨by simp, by simp⟩
  | some c =>
      cases hdf : deleteFails with
      | true =>
          rw [hdf] at hfails
          rw [hfails (by rw [hn]; rfl) rfl]
          exact ⟨by simp, by simp⟩
      | false =>
          rw [hdf] at hdel
          obtain ⟨r, hr, _⟩ := hdel (by rw [hn]; rfl) rfl
          rw [hr]
          exact ⟨by simp, by simp⟩

/-- A client state that already holds a collection named `"c"`. -/
def stWithC : ClientMap := fun n => if n = "c" then some emptyCollection else none

theorem C10_witness :
    create_collection stWithC "c" docs20 metas20 ids20 true (fun _ => true)
        true = .error .alreadyExists ∧
    Msg.created ∈ (buildLog (fun _ => none) "c" docs20 metas20 ids20 true
      (fun _ => true)).getD [] := by
  refine ⟨(C10_delete_suppressed stWithC "c" docs20 metas20 ids20
    (fun _ => true) true).2.2.1 rfl rfl, ?_⟩
  obtain ⟨r, hr, hmem⟩ := (C10_delete_suppressed (fun _ => none) "c" docs20
    metas20 ids20 (fun _ => true) true).2.1 rfl
  unfold buildLog
  rw [hr]
  exact hmem

end CSPrograms
